import Mathlib

/-!
Verification development for `build_blogs.py` (pyairbyte-seo).

The script is embedded shallowly: the language-model API, the connector
registry and the HTTP layer are oracles passed in as functions; Python
dictionaries become functions `String → Option String`; Python's
`str.replace` (replace every non-overlapping occurrence, scanning left to
right) is embedded as a fuel-indexed recursion over `List Char`; an
uncaught Python exception in the catalog loop is embedded as the loop
producing no further events.
-/

/-- A chat message, mirroring the `{"role": ..., "content": ...}` dicts. -/
structure Message where
  role : String
  content : String
deriving DecidableEq

/-- One entry of the source catalog, mirroring `source['original']` /
`source['formatted']` accesses in the script. -/
structure SourceConnector where
  original : String
  formatted : String
deriving DecidableEq

/-- Does `pat` occur at the head of `l`? (List-level `startsWith`.) -/
def startsWithSeq : List Char → List Char → Bool
  | [], _ => true
  | _ :: _, [] => false
  | p :: ps, c :: cs => p = c && startsWithSeq ps cs

/-- Does `pat` occur anywhere in `l` as a contiguous subsequence? -/
def containsSeq (pat : List Char) : List Char → Bool
  | [] => startsWithSeq pat []
  | c :: rest => startsWithSeq pat (c :: rest) || containsSeq pat rest

/-- Fuel-indexed embedding of Python's `str.replace`: replaces every
non-overlapping occurrence of `pat`, scanning left to right.  One unit of
fuel is spent per position, so `fuel = l.length` always suffices. -/
def replaceFuel (pat rep : List Char) : Nat → List Char → List Char
  | _, [] => []
  | 0, l => l
  | fuel + 1, c :: rest =>
    if startsWithSeq pat (c :: rest)
    then rep ++ replaceFuel pat rep fuel ((c :: rest).drop pat.length)
    else c :: replaceFuel pat rep fuel rest

/-- String-level wrapper: `pyReplace s pat rep` is Python's `s.replace(pat, rep)`. -/
def pyReplace (s pat rep : String) : String :=
  String.mk (replaceFuel pat.data rep.data s.data.length s.data)

/-- Last element of a character list, if any. -/
def lastC : List Char → Option Char
  | [] => none
  | [c] => some c
  | _ :: c :: rest => lastC (c :: rest)

/-- The backtick character. -/
def tick : Char := Char.ofNat 96

/-- The three-character code-fence marker. -/
def tick3 : List Char := "```".data

/-- Length of the leading run of backticks. -/
def leadTicks : List Char → Nat
  | [] => 0
  | c :: rest => if c = tick then leadTicks rest + 1 else 0

/-- Python renders `None` as the string "None" inside an f-string;
any present value renders as itself. -/
def pyOptStr : Option String → String
  | some s => s
  | none => "None"

/-- Dictionary update `d[k] = v` on the functional embedding of a dict. -/
def dictSet (d : String → Option String) (k v : String) : String → Option String :=
  fun x => if x = k then some v else d x

/-! ## Snippet Synthesizer (`create_code_example`, lines 10-46) -/

/-- Template text before the first `{connector}` interpolation. -/
def tpl1 : String := "pip install airbyte\n\n            import airbyte as ab\n\n            # Create and configure the source connector, don't forget to use your own values in the config:\n            source = ab.get_source(\n                "

/-- Template text between `{connector}` and `{config}`. -/
def tpl2 : String := ",\n                install_if_missing=True,\n                config="

/-- Template text between `{config}` and the second `{connector}`. -/
def tpl3 : String := "\n            )\n\n            # Verify the config and credentials:\n            source.check()\n\n            # List the available streams available for the "

/-- Template text after the second `{connector}` interpolation. -/
def tpl4 : String := " connector:\n            source.get_available_streams()\n\n            # Select all streams to load to cache. You can also select some of them with the `select_streams()` method.\n            source.select_all_streams()\n\n            # Read into DuckDB local default cache. You could also use a custom cache here (Postgres, Snowflake, BigQuery, etc.)\n            cache = ab.get_default_cache()\n            result = source.read(cache=cache)\n\n            # Read a stream from the cache into a pandas Dataframe, replace with the stream you're interested in. You can also read from the cache into SQL, or documents (for LLMs).\n            df = cache[\"your_stream\"].to_pandas()"

/-- The f-string template of `create_code_example` with its two interpolation
holes filled in. -/
def snippetText (connector config : String) : String :=
  tpl1 ++ connector ++ tpl2 ++ config ++ tpl3 ++ connector ++ tpl4

/-- The defensive cleanup applied to the model's configuration response
(line 17): `response.replace("json", "").replace("```", "")`. -/
def cleanConfig (response : String) : String :=
  pyReplace (pyReplace response "json" "") "```" ""

/-- Embedding of `create_code_example(connector)`.  `config_spec` is the
oracle for `ab.get_source(connector).config_spec`; `model` is the oracle
for `client.chat.completions.create` (returning the text of
`response.choices[0].message.content`). -/
def create_code_example (model : List Message → String) (config_spec : String → String)
    (connector : String) : String :=
  let prompt := "Generate an example configuration based on the following JSON spec. Provide only the configuration, without explanations: " ++ config_spec connector
  let response := model [{ role := "system", content := "You are a helpful assistant." },
                         { role := "user", content := prompt }]
  let config := cleanConfig response
  snippetText connector config

/-! ## Chapter Generator (`generate_blog_chapter`, lines 49-54) -/

/-- The system message sent on every chapter-generation call (line 52). -/
def sysChat : Message :=
  { role := "system",
    content := "You are a helpful assistant. Use clear, precise language, and limit pompous words. Use a natural tone. Prioritize substance" }

/-- A `{"role": "user", ...}` message. -/
def userMsg (prompt : String) : Message := { role := "user", content := prompt }

/-- A `{"role": "assistant", ...}` message. -/
def assistantMsg (text : String) : Message := { role := "assistant", content := text }

/-- Embedding of `generate_blog_chapter(prompt, chat_history)`: one model
call whose message list is `[system] + chat_history + [user prompt]`. -/
def generate_blog_chapter (model : List Message → String) (prompt : String)
    (chat_history : List Message) : String :=
  model (sysChat :: chat_history ++ [userMsg prompt])

/-! ## Post Assembler and the chapter loop (`build_blog_post`, lines 56-70) -/

/-- The two mutable values threaded through `build_blog_post`:
the `blog_chapters` dict and the `conversation_history` list. -/
structure BuildState where
  blog_chapters : String → Option String
  conversation_history : List Message

/-- The `for chapter, prompt in chapter_prompts.items()` loop of
`build_blog_post` (lines 58-60): generate, store in the dict, append an
assistant turn to the history. -/
def chapterLoop (model : List Message → String) :
    List (String × String) → BuildState → BuildState
  | [], st => st
  | (chapter, prompt) :: rest, st =>
    let text := generate_blog_chapter model prompt st.conversation_history
    chapterLoop model rest
      { blog_chapters := dictSet st.blog_chapters chapter text,
        conversation_history := st.conversation_history ++ [assistantMsg text] }

/-- The chapter texts the loop generates, in call order. -/
def chapterTexts (model : List Message → String) :
    List (String × String) → List Message → List String
  | [], _ => []
  | (_, prompt) :: rest, hist =>
    let text := generate_blog_chapter model prompt hist
    text :: chapterTexts model rest (hist ++ [assistantMsg text])

/-- The full message list passed to the model on each generation call,
in call order. -/
def callTrace (model : List Message → String) :
    List (String × String) → List Message → List (List Message)
  | [], _ => []
  | (_, prompt) :: rest, hist =>
    (sysChat :: hist ++ [userMsg prompt]) ::
      callTrace model rest
        (hist ++ [assistantMsg (generate_blog_chapter model prompt hist)])

/-- The concatenation of lines 62-68.  A missing dict key would raise
`KeyError` in Python, embedded as `none`. -/
def assemble_blog_post (blog_chapters ctasD : String → Option String) : Option String :=
  match blog_chapters "introduction", blog_chapters "chapter_1", blog_chapters "chapter_2",
        ctasD "docs_quickstarts_cta", blog_chapters "chapter_3", blog_chapters "conclusion",
        ctasD "slack_newsletter_cta" with
  | some i, some c1, some c2, some d, some c3, some co, some s =>
    some (i ++ "\n\n" ++ c1 ++ "\n\n" ++ c2 ++ "\n\n" ++ d ++ "\n\n" ++ c3
            ++ "\n\n" ++ co ++ "\n\n" ++ s)
  | _, _, _, _, _, _, _ => none

/-- Embedding of `build_blog_post`: run the chapter loop, then assemble. -/
def build_blog_post (model : List Message → String) (chapter_prompts : List (String × String))
    (st : BuildState) (ctasD : String → Option String) : BuildState × Option String :=
  let st2 := chapterLoop model chapter_prompts st
  (st2, assemble_blog_post st2.blog_chapters ctasD)

/-! ## Static calls-to-action (lines 131-134) -/

/-- The `docs_quickstarts_cta` entry of the `ctas` dict. -/
def docs_quickstarts_cta : String := "For keeping up with the latest PyAirbyte’s features, make sure to check [our documentation](https://docs.airbyte.com/using-airbyte/pyairbyte/getting-started). And if you’re eager to see more code examples with PyAirbyte, check out our [Quickstarts library](https://github.com/airbytehq/quickstarts/tree/main/pyairbyte_notebooks)."

/-- The `slack_newsletter_cta` entry of the `ctas` dict. -/
def slack_newsletter_cta : String := "Do you have any questions or feedback for us? You can keep in touch by joining our [Slack channel](https://airbyte.com/community/community)! If you want to keep up to date with new PyAirbyte features, [subscribe to our newsletter](https://airbyte.com/community/newsletter)."

/-- The `ctas` dict literal of `__main__`, as a lookup function. -/
def ctas : String → Option String := fun k =>
  if k = "docs_quickstarts_cta" then some docs_quickstarts_cta
  else if k = "slack_newsletter_cta" then some slack_newsletter_cta
  else none

/-! ## Chapter prompts (lines 139-145) -/

/-- The `chapter_prompts` OrderedDict of `__main__`, as an association list
in insertion order.  The chapter_2 prompt embeds the snippet produced by
`create_code_example(source['formatted'])`, which is evaluated while the
dict literal is built. -/
def chapter_prompts (model : List Message → String) (config_spec : String → String)
    (source : SourceConnector) : List (String × String) :=
  [ ("chapter_1", "I’m writing a guide and I need your help to write some of the chapters.\r\n\r\nThe guide focuses on the challenges of creating custom Python scripts for creating data pipelines from " ++ source.original ++ " and how PyAirbyte simplifies this process. \r\n\r\n[PyAirbyte] (https://airbyte.com/product/pyairbyte) is an open-source Python library that packages Airbyte connectors and makes them available as code, while removing the need for hosted services or an Airbyte Cloud account.\r\n\r\nPlease help me write the following chapter. Don’t include an introduction and conclusion:\r\n\r\nTitle: Traditional Methods for Creating " ++ source.original ++ " Data Pipelines\r\nCover the following:\r\nOutline conventional methods, like custom Python scripts.\r\nDescribe specific pain points in extracting data from " ++ source.original ++ ".\r\nExplain the impact of these challenges on data pipeline efficiency and maintenance.\r\n"),
    ("chapter_2", "Let’s continue with the next chapter. Don’t include an introduction and conclusion:\r\n\r\nTitle: Implementing a Python Data Pipeline for " ++ source.original ++ " with PyAirbyte\r\nInclude the following Python code snippets and explain what’s happening in each section:\r\n" ++ create_code_example model config_spec source.formatted ++ "\r\n"),
    ("chapter_3", "Let’s continue with the next chapter. Don’t include an introduction and conclusion:\r\n\r\nTitle: Why Using PyAirbyte for " ++ source.original ++ " Data Pipelines:\r\nCover the following:\r\nPyAirbyte can be installed with pip, and the only requirement is to have Python installed.\r\nYou can easily get and configure the available source connectors. It’s also possible to install custom source connectors.\r\nBy enabling the selection of specific data streams, PyAirbyte conserves computing resources and streamlines data processing.\r\nWith support for multiple caching backends like DuckDB, MotherDuck, Postgres, Snowflake and BigQuery, PyAirbyte offers flexibility. If users don’t define a specific Cache, DuckDB is used as the default cache.\r\nPyAirbyte is able to read data incrementally. This feature is key for efficiently handling large datasets and reducing the load on data sources.\r\nPyAirbyte is compatible with various Python libraries, like Pandas and SQL-based tools, which opens up a wide range of possibilities for data transformation, analysis, integration into existing Python-based data workflows, orchestrators and AI frameworks.\r\nPyAirbyte is ideally suited for enabling AI applications.\r\n"),
    ("conclusion", "Let’s write a very short conclusion chapter for this guide."),
    ("introduction", "Let’s write a very short introduction, highlighting some of the challenges and how PyAirbyte could reduce them.") ]

/-! ## CMS Uploader (`upload_post_to_webflow`, lines 72-110) -/

/-- The `fieldData` part of the Webflow payload (lines 90-100).  Field
names carry dashes in the JSON (`seo-title-tag`, etc.); they are mapped to
underscore names here. -/
structure FieldData where
  name : String
  slug : String
  seo_title_tag : String
  seo_meta_description : String
  publish_date : String
  time_to_read : String
  post_body : String
deriving DecidableEq

/-- The `blog_post_data` payload (lines 87-101). -/
structure BlogPostData where
  isArchived : Bool
  isDraft : Bool
  fieldData : FieldData
deriving DecidableEq

/-- One POST request to the Webflow API: URL, headers, JSON payload. -/
structure WebflowCall where
  url : String
  authHeader : String
  accept : String
  contentType : String
  payload : BlogPostData
deriving DecidableEq

/-- An HTTP response as consumed by the script: status code and body text. -/
structure HttpResponse where
  status_code : Nat
  text : String

/-- The PyAirbyte CMS collection id (line 75). -/
def collection_id : String := "66200272dd44bc109a1d8cff"

/-- The `blog_post_data` dict built in `upload_post_to_webflow`. -/
def blog_post_data (source_connector : SourceConnector) (blog_post_body : String) :
    BlogPostData :=
  { isArchived := false,
    isDraft := true,
    fieldData :=
      { name := "How To Create a " ++ source_connector.original ++ " Python Pipeline with PyAirbyte",
        slug := pyReplace source_connector.formatted "source-" "" ++ "-python",
        seo_title_tag := "How To Create a " ++ source_connector.original ++ " Python Pipeline with PyAirbyte",
        seo_meta_description := "Learn how to create a " ++ source_connector.original ++ " Python data pipeline with our easy step-by-step guide. Master the setup using PyAirbyte to efficiently manage your " ++ source_connector.original ++ " data.",
        publish_date := "2024-04-24T12:00:00.000Z",
        time_to_read := "10 min read",
        post_body := blog_post_body } }

/-- The request `upload_post_to_webflow` makes: URL from the fixed
collection id, bearer token read from the environment at call time
(`os.getenv("WEBFLOW_API_TOKEN")`, rendering `None` if absent), and the
payload. -/
def webflowCallOf (env : String → Option String) (source_connector : SourceConnector)
    (blog_post_body : String) : WebflowCall :=
  { url := "https://api.webflow.com/v2/collections/" ++ collection_id ++ "/items",
    authHeader := "Bearer " ++ pyOptStr (env "WEBFLOW_API_TOKEN"),
    accept := "application/json",
    contentType := "application/json",
    payload := blog_post_data source_connector blog_post_body }

/-- Embedding of `upload_post_to_webflow`: make the POST via the `http`
oracle and classify the response (lines 104-110).  Returns the success flag
together with the printed report line; the function is total — no response
status makes it raise. -/
def upload_post_to_webflow (env : String → Option String) (http : WebflowCall → HttpResponse)
    (source_connector : SourceConnector) (blog_post_body : String) : Bool × String :=
  let response := http (webflowCallOf env source_connector blog_post_body)
  if response.status_code ∈ [200, 201, 202] then
    (true, "Blog post successfully uploaded for " ++ source_connector.original ++ "!")
  else
    (false, "Failed to upload blog post " ++ source_connector.original ++ ". Status code: "
              ++ toString response.status_code ++ ", Response: " ++ response.text)

/-! ## Local Writer (`download_post`, lines 112-120) -/

/-- The output path (line 114): `./blogs/{source_connector['formatted']}.md`. -/
def download_filename (source_connector : SourceConnector) : String :=
  "./blogs/" ++ source_connector.formatted ++ ".md"

/-- Embedding of `download_post` on a functional filesystem:
`open(filename, "w")` truncates, so the write replaces any previous
contents of that path and leaves every other path unchanged. -/
def download_post (fs : String → Option String) (source_connector : SourceConnector)
    (blog_post_body : String) : String → Option String :=
  fun p => if p = download_filename source_connector then some blog_post_body else fs p

/-! ## The catalog loop (`__main__`, lines 136-160) -/

/-- Observable side effects of one loop iteration: the local file write and
the CMS upload (with its success flag and printed report line). -/
inductive RunEvent where
  | saved (filename : String) (content : String)
  | uploaded (source_original : String) (success : Bool) (line : String)
deriving DecidableEq

/-- Embedding of the `for source in sources` loop.  `gen source` stands for
the whole generation phase of one iteration (building `chapter_prompts`,
which calls the model inside `create_code_example`, and running
`build_blog_post`): any API error there raises a Python exception, and the
loop body has no handler, so an uncaught exception terminates the process —
embedded by returning the trace so far, attempting no further source. -/
def catalogLoop (gen : SourceConnector → Except String String)
    (env : String → Option String) (http : WebflowCall → HttpResponse) :
    List SourceConnector → List RunEvent
  | [] => []
  | source :: rest =>
    match gen source with
    | Except.error _ => []
    | Except.ok blog_post =>
      let up := upload_post_to_webflow env http source blog_post
      RunEvent.saved (download_filename source) blog_post ::
        RunEvent.uploaded source.original up.1 up.2 ::
        catalogLoop gen env http rest

/-! ## Concrete instantiations used to exercise the theorems -/

/-- A deterministic stand-in for the model oracle. -/
def wModel : List Message → String := fun _ => "TEXT"

/-- A model oracle whose configuration response is the fence-splitting
string "js```on". -/
def wModelFence : List Message → String := fun _ => "js```on"

/-- A stand-in for the connector registry oracle. -/
def wSpec : String → String := fun _ => "SPEC"

/-- A concrete catalog entry. -/
def wSrc : SourceConnector := { original := "Spotify", formatted := "source-spotify" }

/-- Concrete catalog entries for the three-connector scenarios. -/
def wSrcA : SourceConnector := { original := "Alpha", formatted := "source-alpha" }

/-- Second concrete catalog entry. -/
def wSrcB : SourceConnector := { original := "Beta", formatted := "source-beta" }

/-- Third concrete catalog entry. -/
def wSrcC : SourceConnector := { original := "Gamma", formatted := "source-gamma" }

/-- An environment holding only the model key — the CMS token is absent. -/
def wEnvNoTok : String → Option String :=
  fun k => if k = "OPENAI_KEY" then some "sk-test" else none

/-- An environment holding both secrets. -/
def wEnvFull : String → Option String :=
  fun k =>
    if k = "OPENAI_KEY" then some "sk-test"
    else if k = "WEBFLOW_API_TOKEN" then some "wf-token"
    else none

/-- An HTTP oracle answering 200 to every request. -/
def wHttp200 : WebflowCall → HttpResponse := fun _ => { status_code := 200, text := "ok" }

/-- An HTTP oracle answering 500 to every request. -/
def wHttp500 : WebflowCall → HttpResponse :=
  fun _ => { status_code := 500, text := "server error" }

/-- The initial per-connector state of `__main__`: empty chapter dict,
empty conversation history (lines 148-151). -/
def wSt : BuildState := { blog_chapters := fun _ => none, conversation_history := [] }

/-- Bool-valued success test for the generation oracle. -/
def isOkE : Except String String → Bool
  | Except.ok _ => true
  | Except.error _ => false

/-- A generation oracle that succeeds on every connector. -/
def wGenOk : SourceConnector → Except String String := fun _ => Except.ok "POST"

/-- A generation oracle that raises (an API error) exactly on the second
catalog entry. -/
def wGenFail2 : SourceConnector → Except String String :=
  fun sc => if sc.formatted = "source-beta" then Except.error "APIError" else Except.ok "POST"

/-! ## Lemmas about the string scanners -/

theorem startsWithSeq_iff (pat : List Char) :
    ∀ l : List Char, startsWithSeq pat l = true ↔ ∃ t, l = pat ++ t := by
  induction pat with
  | nil => intro l; simp [startsWithSeq]
  | cons p ps ih =>
    intro l
    cases l with
    | nil => simp [startsWithSeq]
    | cons c cs =>
      simp only [startsWithSeq, Bool.and_eq_true, decide_eq_true_eq, ih cs]
      constructor
      · rintro ⟨rfl, t, rfl⟩; exact ⟨t, rfl⟩
      · rintro ⟨t, ht⟩
        rw [List.cons_append] at ht
        injection ht with h1 h2
        exact ⟨h1.symm, t, h2⟩

theorem containsSeq_iff (pat : List Char) :
    ∀ l : List Char, containsSeq pat l = true ↔ ∃ s t, l = s ++ pat ++ t := by
  intro l
  induction l with
  | nil =>
    simp only [containsSeq, startsWithSeq_iff]
    constructor
    · rintro ⟨t, ht⟩; exact ⟨[], t, by simpa using ht⟩
    · rintro ⟨s, t, h⟩
      have h2 := h.symm
      rw [List.append_assoc] at h2
      rcases List.append_eq_nil.mp h2 with ⟨hs, h3⟩
      rcases List.append_eq_nil.mp h3 with ⟨hp, ht⟩
      exact ⟨[], by simp [hp]⟩
  | cons c rest ih =>
    simp only [containsSeq, Bool.or_eq_true, startsWithSeq_iff, ih]
    constructor
    · rintro (⟨t, ht⟩ | ⟨s, t, ht⟩)
      · exact ⟨[], t, by simp [ht]⟩
      · exact ⟨c :: s, t, by simp [ht]⟩
    · rintro ⟨s, t, ht⟩
      cases s with
      | nil => exact Or.inl ⟨t, by simpa using ht⟩
      | cons s0 s1 =>
        right
        rw [List.cons_append, List.cons_append] at ht
        injection ht with h1 h2
        exact ⟨s1, t, by simpa using h2⟩

theorem replaceFuel_of_not_contains (pat rep : List Char) :
    ∀ (fuel : Nat) (l : List Char), l.length ≤ fuel →
      containsSeq pat l = false → replaceFuel pat rep fuel l = l := by
  intro fuel
  induction fuel with
  | zero =>
    intro l hl _
    cases l with
    | nil => rfl
    | cons c rest => simp at hl
  | succ f ih =>
    intro l hl hc
    cases l with
    | nil => rfl
    | cons c rest =>
      simp only [containsSeq, Bool.or_eq_false_iff] at hc
      simp only [replaceFuel, hc.1, Bool.false_eq_true, if_false]
      rw [ih rest (by simpa using Nat.le_of_succ_le_succ hl) hc.2]

theorem replaceFuel_nil_length_le (pat : List Char) :
    ∀ (fuel : Nat) (l : List Char), (replaceFuel pat [] fuel l).length ≤ l.length := by
  intro fuel
  induction fuel with
  | zero =>
    intro l
    cases l with
    | nil => simp [replaceFuel]
    | cons c rest => simp [replaceFuel]
  | succ f ih =>
    intro l
    cases l with
    | nil => simp [replaceFuel]
    | cons c rest =>
      by_cases hsw : startsWithSeq pat (c :: rest) = true
      · simp only [replaceFuel, hsw, if_true, List.nil_append]
        calc (replaceFuel pat [] f (List.drop pat.length (c :: rest))).length
            ≤ (List.drop pat.length (c :: rest)).length := ih _
          _ ≤ (c :: rest).length := by simp only [List.length_drop]; omega
      · simp only [replaceFuel, hsw, Bool.false_eq_true, if_false, List.length_cons]
        exact Nat.succ_le_succ (ih rest)

theorem replaceFuel_nil_length_lt (pat : List Char) (hpat : pat ≠ []) :
    ∀ (fuel : Nat) (l : List Char), l.length ≤ fuel → containsSeq pat l = true →
      (replaceFuel pat [] fuel l).length < l.length := by
  intro fuel
  induction fuel with
  | zero =>
    intro l hl hc
    cases l with
    | nil =>
      exfalso
      rcases (containsSeq_iff pat []).mp hc with ⟨s, t, h⟩
      have h2 := h.symm
      rw [List.append_assoc] at h2
      rcases List.append_eq_nil.mp h2 with ⟨hs, h3⟩
      exact hpat (List.append_eq_nil.mp h3).1
    | cons c rest => simp at hl
  | succ f ih =>
    intro l hl hc
    cases l with
    | nil =>
      exfalso
      rcases (containsSeq_iff pat []).mp hc with ⟨s, t, h⟩
      have h2 := h.symm
      rw [List.append_assoc] at h2
      rcases List.append_eq_nil.mp h2 with ⟨hs, h3⟩
      exact hpat (List.append_eq_nil.mp h3).1
    | cons c rest =>
      by_cases hsw : startsWithSeq pat (c :: rest) = true
      · simp only [replaceFuel, hsw, if_true, List.nil_append]
        have hd : (replaceFuel pat [] f (List.drop pat.length (c :: rest))).length
            ≤ (List.drop pat.length (c :: rest)).length := replaceFuel_nil_length_le pat f _
        have hplen : 1 ≤ pat.length := by
          cases pat with
          | nil => exact absurd rfl hpat
          | cons p ps => simp
        have : (List.drop pat.length (c :: rest)).length < (c :: rest).length := by
          simp [List.length_drop]
          omega
        omega
      · have hc2 : containsSeq pat rest = true := by
          have := hc
          simp only [containsSeq, Bool.or_eq_true] at this
          rcases this with h | h
          · exact absurd h hsw
          · exact h
        simp only [replaceFuel, hsw, Bool.false_eq_true, if_false, List.length_cons]
        exact Nat.succ_lt_succ (ih rest (by simpa using Nat.le_of_succ_le_succ hl) hc2)

theorem replaceFuel_pat_append (pat rep rest : List Char) (hpat : pat ≠ [])
    (fuel : Nat) (hf : (pat ++ rest).length ≤ fuel)
    (hrest : containsSeq pat rest = false) :
    replaceFuel pat rep fuel (pat ++ rest) = rep ++ rest := by
  cases pat with
  | nil => exact absurd rfl hpat
  | cons p ps =>
    cases fuel with
    | zero => simp at hf
    | succ f =>
      have hsw : startsWithSeq (p :: ps) ((p :: ps) ++ rest) = true :=
        (startsWithSeq_iff (p :: ps) _).mpr ⟨rest, rfl⟩
      rw [List.cons_append]
      simp only [replaceFuel, ← List.cons_append, hsw, if_true]
      have hdrop : List.drop (p :: ps).length ((p :: ps) ++ rest) = rest :=
        List.drop_left (p :: ps) rest
      rw [hdrop]
      rw [replaceFuel_of_not_contains (p :: ps) rep f rest (by simp at hf ⊢; omega) hrest]

theorem tick3_eq : tick3 = [tick, tick, tick] := by decide

theorem startsWithSeq_tick3_iff (l : List Char) :
    startsWithSeq tick3 l = true ↔ ∃ t, l = tick :: tick :: tick :: t := by
  rw [startsWithSeq_iff, tick3_eq]
  simp

theorem leadTicks_cons_tick (t : List Char) : leadTicks (tick :: t) = leadTicks t + 1 := by
  simp [leadTicks]

theorem leadTicks_two (r : List Char) (h : 2 ≤ leadTicks r) : ∃ t, r = tick :: tick :: t := by
  cases r with
  | nil => simp [leadTicks] at h
  | cons c r2 =>
    by_cases hc : c = tick
    · subst hc
      cases r2 with
      | nil => simp [leadTicks] at h
      | cons d r3 =>
        by_cases hd : d = tick
        · subst hd; exact ⟨r3, rfl⟩
        · rw [leadTicks_cons_tick] at h
          simp [leadTicks, hd] at h
    · simp [leadTicks, hc] at h

theorem leadTicks_replaceFuel :
    ∀ (fuel : Nat) (l : List Char), l.length ≤ fuel →
      leadTicks (replaceFuel tick3 [] fuel l) ≤ leadTicks l := by
  intro fuel
  induction fuel with
  | zero =>
    intro l hl
    cases l with
    | nil => simp [replaceFuel]
    | cons c rest => simp at hl
  | succ f ih =>
    intro l hl
    cases l with
    | nil => simp [replaceFuel]
    | cons c rest =>
      by_cases hsw : startsWithSeq tick3 (c :: rest) = true
      · rcases (startsWithSeq_tick3_iff _).mp hsw with ⟨t, ht⟩
        simp only [replaceFuel, hsw, if_true, List.nil_append]
        have hdrop : List.drop tick3.length (c :: rest) = t := by
          rw [ht, tick3_eq]; rfl
        rw [hdrop]
        have hlen : t.length ≤ f := by
          have : (c :: rest).length = t.length + 3 := by rw [ht]; simp
          omega
        calc leadTicks (replaceFuel tick3 [] f t) ≤ leadTicks t := ih t hlen
          _ ≤ leadTicks (c :: rest) := by
              rw [ht, leadTicks_cons_tick, leadTicks_cons_tick, leadTicks_cons_tick]
              omega
      · simp only [replaceFuel, hsw, Bool.false_eq_true, if_false]
        by_cases hc : c = tick
        · subst hc
          rw [leadTicks_cons_tick, leadTicks_cons_tick]
          exact Nat.succ_le_succ (ih rest (by simpa using Nat.le_of_succ_le_succ hl))
        · simp [leadTicks, hc]

theorem containsSeq_tick3_replaceFuel :
    ∀ (fuel : Nat) (l : List Char), l.length ≤ fuel →
      containsSeq tick3 (replaceFuel tick3 [] fuel l) = false := by
  intro fuel
  induction fuel with
  | zero =>
    intro l hl
    cases l with
    | nil => simp [replaceFuel, containsSeq, startsWithSeq, tick3_eq]
    | cons c rest => simp at hl
  | succ f ih =>
    intro l hl
    cases l with
    | nil => simp [replaceFuel, containsSeq, startsWithSeq, tick3_eq]
    | cons c rest =>
      by_cases hsw : startsWithSeq tick3 (c :: rest) = true
      · rcases (startsWithSeq_tick3_iff _).mp hsw with ⟨t, ht⟩
        simp only [replaceFuel, hsw, if_true, List.nil_append]
        have hdrop : List.drop tick3.length (c :: rest) = t := by
          rw [ht, tick3_eq]; rfl
        rw [hdrop]
        have hlen : t.length ≤ f := by
          have : (c :: rest).length = t.length + 3 := by rw [ht]; simp
          omega
        exact ih t hlen
      · simp only [replaceFuel, hsw, Bool.false_eq_true, if_false]
        have hrest : rest.length ≤ f := by simp at hl; omega
        have htail : containsSeq tick3 (replaceFuel tick3 [] f rest) = false := ih rest hrest
        simp only [containsSeq, Bool.or_eq_false_iff]
        refine ⟨?_, htail⟩
        by_cases hc : c = tick
        · subst hc
          by_contra hx
          have hx2 : startsWithSeq tick3 (tick :: replaceFuel tick3 [] f rest) = true := by
            cases h : startsWithSeq tick3 (tick :: replaceFuel tick3 [] f rest) with
            | false => exact absurd h hx
            | true => rfl
          rcases (startsWithSeq_tick3_iff _).mp hx2 with ⟨t, ht⟩
          injection ht with h1 h2
          have hge : 2 ≤ leadTicks (replaceFuel tick3 [] f rest) := by
            rw [h2, leadTicks_cons_tick, leadTicks_cons_tick]
            omega
          have hle : leadTicks (replaceFuel tick3 [] f rest) ≤ leadTicks rest :=
            leadTicks_replaceFuel f rest hrest
          have hr1 : leadTicks rest ≤ 1 := by
            by_contra hr2
            rcases leadTicks_two rest (by omega) with ⟨t2, ht2⟩
            have : startsWithSeq tick3 (tick :: rest) = true :=
              (startsWithSeq_tick3_iff _).mpr ⟨t2, by rw [ht2]⟩
            exact hsw this
          omega
        · by_contra hx
          have hx2 : startsWithSeq tick3 (c :: replaceFuel tick3 [] f rest) = true := by
            cases h : startsWithSeq tick3 (c :: replaceFuel tick3 [] f rest) with
            | false => exact absurd h hx
            | true => rfl
          rcases (startsWithSeq_tick3_iff _).mp hx2 with ⟨t, ht⟩
          injection ht with h1 h2
          exact hc h1

theorem containsSeq_tick3_append_headGuard (a b : List Char)
    (ha : containsSeq tick3 a = false) (hb : containsSeq tick3 b = false)
    (hhead : b.head? ≠ some tick) : containsSeq tick3 (a ++ b) = false := by
  induction a with
  | nil => simpa using hb
  | cons c a2 iha =>
    simp only [containsSeq, Bool.or_eq_false_iff] at ha
    rw [List.cons_append]
    simp only [containsSeq, Bool.or_eq_false_iff]
    refine ⟨?_, iha ha.2⟩
    by_contra hx
    have hx2 : startsWithSeq tick3 (c :: (a2 ++ b)) = true := by
      cases h : startsWithSeq tick3 (c :: (a2 ++ b)) with
      | false => exact absurd h hx
      | true => rfl
    rcases (startsWithSeq_tick3_iff _).mp hx2 with ⟨t, ht⟩
    injection ht with h1 h2
    subst h1
    cases a2 with
    | nil =>
      simp only [List.nil_append] at h2
      exact hhead (by rw [h2]; rfl)
    | cons d a3 =>
      rw [List.cons_append] at h2
      injection h2 with h3 h4
      subst h3
      cases a3 with
      | nil =>
        simp only [List.nil_append] at h4
        exact hhead (by rw [h4]; rfl)
      | cons e a4 =>
        rw [List.cons_append] at h4
        injection h4 with h5 h6
        subst h5
        exact absurd ((startsWithSeq_tick3_iff _).mpr ⟨a4, rfl⟩) (by simp [ha.1])

theorem containsSeq_tick3_append_lastGuard (a b : List Char)
    (ha : containsSeq tick3 a = false) (hb : containsSeq tick3 b = false)
    (hlast : lastC a ≠ some tick) : containsSeq tick3 (a ++ b) = false := by
  induction a with
  | nil => simpa using hb
  | cons c a2 iha =>
    simp only [containsSeq, Bool.or_eq_false_iff] at ha
    rw [List.cons_append]
    simp only [containsSeq, Bool.or_eq_false_iff]
    constructor
    · by_contra hx
      have hx2 : startsWithSeq tick3 (c :: (a2 ++ b)) = true := by
        cases h : startsWithSeq tick3 (c :: (a2 ++ b)) with
        | false => exact absurd h hx
        | true => rfl
      rcases (startsWithSeq_tick3_iff _).mp hx2 with ⟨t, ht⟩
      injection ht with h1 h2
      subst h1
      cases a2 with
      | nil => exact hlast rfl
      | cons d a3 =>
        rw [List.cons_append] at h2
        injection h2 with h3 h4
        subst h3
        cases a3 with
        | nil => exact hlast rfl
        | cons e a4 =>
          rw [List.cons_append] at h4
          injection h4 with h5 h6
          subst h5
          exact absurd ((startsWithSeq_tick3_iff _).mpr ⟨a4, rfl⟩) (by simp [ha.1])
    · cases a2 with
      | nil => simpa using hb
      | cons d a3 =>
        exact iha ha.2 (by simpa [lastC] using hlast)

theorem containsSeq_tick3_of_no_tick (a : List Char) (h : ∀ c ∈ a, c ≠ tick) :
    containsSeq tick3 a = false := by
  induction a with
  | nil => simp [containsSeq, startsWithSeq, tick3_eq]
  | cons c a2 iha =>
    simp only [containsSeq, Bool.or_eq_false_iff]
    constructor
    · by_contra hx
      have hx2 : startsWithSeq tick3 (c :: a2) = true := by
        cases hh : startsWithSeq tick3 (c :: a2) with
        | false => exact absurd hh hx
        | true => rfl
      rcases (startsWithSeq_tick3_iff _).mp hx2 with ⟨t, ht⟩
      injection ht with h1 h2
      exact h c (by simp) h1
    · exact iha (fun d hd => h d (by simp [hd]))

theorem head?_append_ne_tick (a b : List Char) (ha : ∀ c ∈ a, c ≠ tick)
    (hb : b.head? ≠ some tick) : (a ++ b).head? ≠ some tick := by
  cases a with
  | nil => simpa using hb
  | cons c a2 =>
    intro hx
    rw [List.cons_append] at hx
    simp only [List.head?_cons, Option.some.injEq] at hx
    exact ha c (by simp) hx

theorem head?_append_ne_tick2 (a b : List Char) (ha : a.head? ≠ some tick)
    (hne : a ≠ []) : (a ++ b).head? ≠ some tick := by
  cases a with
  | nil => exact absurd rfl hne
  | cons c a2 => simpa using ha

theorem data_append (s t : String) : (s ++ t).data = s.data ++ t.data := rfl

set_option maxRecDepth 40000 in
theorem snippet_no_fence (connector config : String)
    (hconn : ∀ c ∈ connector.data, c ≠ tick)
    (hconfig : containsSeq tick3 config.data = false) :
    containsSeq tick3 (snippetText connector config).data = false := by
  have hA1 : containsSeq tick3 tpl1.data = false := by decide
  have hA3 : containsSeq tick3 tpl2.data = false := by decide
  have hA5 : containsSeq tick3 tpl3.data = false := by decide
  have hA7 : containsSeq tick3 tpl4.data = false := by decide
  have hC : containsSeq tick3 connector.data = false := containsSeq_tick3_of_no_tick _ hconn
  have h67 : containsSeq tick3 (connector.data ++ tpl4.data) = false :=
    containsSeq_tick3_append_headGuard _ _ hC hA7 (by decide)
  have h567 : containsSeq tick3 (tpl3.data ++ (connector.data ++ tpl4.data)) = false :=
    containsSeq_tick3_append_headGuard _ _ hA5 h67
      (head?_append_ne_tick _ _ hconn (by decide))
  have h4567 : containsSeq tick3
      (config.data ++ (tpl3.data ++ (connector.data ++ tpl4.data))) = false :=
    containsSeq_tick3_append_headGuard _ _ hconfig h567
      (head?_append_ne_tick2 _ _ (by decide) (by decide))
  have h34567 : containsSeq tick3
      (tpl2.data ++ (config.data ++ (tpl3.data ++ (connector.data ++ tpl4.data)))) = false :=
    containsSeq_tick3_append_lastGuard _ _ hA3 h4567 (by decide)
  have h234567 : containsSeq tick3 (connector.data ++
      (tpl2.data ++ (config.data ++ (tpl3.data ++ (connector.data ++ tpl4.data))))) = false :=
    containsSeq_tick3_append_headGuard _ _ hC h34567
      (head?_append_ne_tick2 _ _ (by decide) (by decide))
  have hall : containsSeq tick3 (tpl1.data ++ (connector.data ++
      (tpl2.data ++ (config.data ++ (tpl3.data ++ (connector.data ++ tpl4.data)))))) = false :=
    containsSeq_tick3_append_headGuard _ _ hA1 h234567
      (head?_append_ne_tick _ _ hconn (head?_append_ne_tick2 _ _ (by decide) (by decide)))
  have e : (snippetText connector config).data = tpl1.data ++ (connector.data ++
      (tpl2.data ++ (config.data ++ (tpl3.data ++ (connector.data ++ tpl4.data))))) := by
    simp only [snippetText, data_append, List.append_assoc]
  rw [e]
  exact hall

/-! ## Lemmas about the chapter loop -/

theorem chapterLoop_history (model : List Message → String) :
    ∀ (ps : List (String × String)) (st : BuildState),
      (chapterLoop model ps st).conversation_history
        = st.conversation_history
            ++ (chapterTexts model ps st.conversation_history).map assistantMsg := by
  intro ps
  induction ps with
  | nil => intro st; simp [chapterLoop, chapterTexts]
  | cons kp rest ih =>
    intro st
    cases kp with
    | mk k p =>
      simp only [chapterLoop, chapterTexts, List.map_cons]
      rw [ih]
      simp [List.append_assoc]

theorem chapterTexts_length (model : List Message → String) :
    ∀ (ps : List (String × String)) (h : List Message),
      (chapterTexts model ps h).length = ps.length := by
  intro ps
  induction ps with
  | nil => intro h; simp [chapterTexts]
  | cons kp rest ih =>
    intro h
    cases kp with
    | mk k p => simp [chapterTexts, ih]

theorem getLast?_chat (hist : List Message) (p : String) :
    (sysChat :: hist ++ [userMsg p]).getLast? = some (userMsg p) := by
  exact List.getLast?_concat _

theorem callTrace_getElem (model : List Message → String) :
    ∀ (ps : List (String × String)) (h : List Message) (n : Nat), n < ps.length →
      ∃ kp, ps[n]? = some kp ∧
        (callTrace model ps h)[n]?
          = some (sysChat :: (h ++ (chapterTexts model (ps.take n) h).map assistantMsg)
                    ++ [userMsg kp.2]) := by
  intro ps
  induction ps with
  | nil => intro h n hn; simp at hn
  | cons kp rest ih =>
    intro h n hn
    cases kp with
    | mk k p =>
      cases n with
      | zero =>
        refine ⟨(k, p), by simp, ?_⟩
        simp [callTrace, chapterTexts, List.take]
      | succ n =>
        have hn2 : n < rest.length := by simpa using Nat.lt_of_succ_lt_succ hn
        rcases ih (h ++ [assistantMsg (generate_blog_chapter model p h)]) n hn2 with
          ⟨kp2, hkp2, htrace⟩
        refine ⟨kp2, by simpa using hkp2, ?_⟩
        simp only [callTrace, List.getElem?_cons_succ]
        rw [htrace]
        simp [chapterTexts, List.take, List.append_assoc]

/-! ## Claims -/

/-- C1: for every model oracle, registry oracle, catalog entry and initial
state, the chapter loop generates five texts t1…t5 (in generation order)
and `build_blog_post` returns exactly the concatenation — introduction,
chapter_1, chapter_2, docs/quickstarts CTA, chapter_3, conclusion,
slack/newsletter CTA — with one blank-line separator `"\n\n"` between
consecutive sections.  All five chapter texts thus appear contiguously in
that fixed order; in particular the introduction (t5, generated last) is
placed first, so assembly order is independent of generation order. -/
theorem c1_post_assembly (model : List Message → String) (config_spec : String → String)
    (src : SourceConnector) (st : BuildState) :
    ∃ t1 t2 t3 t4 t5,
      chapterTexts model (chapter_prompts model config_spec src) st.conversation_history
        = [t1, t2, t3, t4, t5]
      ∧ (build_blog_post model (chapter_prompts model config_spec src) st ctas).2
          = some (t5 ++ "\n\n" ++ t1 ++ "\n\n" ++ t2 ++ "\n\n" ++ docs_quickstarts_cta
                    ++ "\n\n" ++ t3 ++ "\n\n" ++ t4 ++ "\n\n" ++ slack_newsletter_cta) := by
  refine ⟨_, _, _, _, _, rfl, ?_⟩
  rfl

/-- C5: the chapter prompts are issued in the fixed key order chapter_1,
chapter_2, chapter_3, conclusion, introduction — the introduction prompt is
issued last — and the user prompt closing each successive model call is
exactly the corresponding prompt of `chapter_prompts`, in list order. -/
theorem c5_issue_order (model : List Message → String) (config_spec : String → String)
    (src : SourceConnector) (h : List Message) :
    (chapter_prompts model config_spec src).map Prod.fst
        = ["chapter_1", "chapter_2", "chapter_3", "conclusion", "introduction"]
    ∧ (callTrace model (chapter_prompts model config_spec src) h).map (fun ms => ms.getLast?)
        = (chapter_prompts model config_spec src).map (fun kp => some (userMsg kp.2)) := by
  constructor
  · rfl
  · simp only [chapter_prompts, callTrace, List.map_cons, List.map_nil, getLast?_chat]

/-- C3: after the chapter loop has processed the first N prompts
(1 ≤ N ≤ 5), the conversation history is exactly the original history
followed by the N generated texts as "assistant" turns, in call order; and
when a next prompt exists (N < 5), the (N+1)-st model call receives exactly
that history — each chapter is appended before the next prompt is issued. -/
theorem c3_history_invariant (model : List Message → String) (config_spec : String → String)
    (src : SourceConnector) (st : BuildState) (N : Nat) (h1 : 1 ≤ N) (h5 : N ≤ 5) :
    (chapterLoop model ((chapter_prompts model config_spec src).take N) st).conversation_history
      = st.conversation_history
          ++ (chapterTexts model ((chapter_prompts model config_spec src).take N)
                st.conversation_history).map assistantMsg
  ∧ (chapterTexts model ((chapter_prompts model config_spec src).take N)
        st.conversation_history).length = N
  ∧ (N < 5 → ∃ kp, (chapter_prompts model config_spec src)[N]? = some kp ∧
      (callTrace model (chapter_prompts model config_spec src) st.conversation_history)[N]?
        = some (sysChat :: (st.conversation_history
                  ++ (chapterTexts model ((chapter_prompts model config_spec src).take N)
                        st.conversation_history).map assistantMsg)
                  ++ [userMsg kp.2])) := by
  refine ⟨chapterLoop_history model _ st, ?_, ?_⟩
  · rw [chapterTexts_length]
    rw [List.length_take, show (chapter_prompts model config_spec src).length = 5 from rfl]
    omega
  · intro hN
    exact callTrace_getElem model _ _ N
      (by rw [show (chapter_prompts model config_spec src).length = 5 from rfl]; omega)

/-- Witness for C3 at N = 3 with concrete oracles. -/
theorem c3_history_invariant_witness :
    1 ≤ 3 ∧ 3 ≤ 5 ∧
      (chapterTexts wModel ((chapter_prompts wModel wSpec wSrc).take 3)
        wSt.conversation_history).length = 3 :=
  ⟨by decide, by decide,
    (c3_history_invariant wModel wSpec wSrc wSt 3 (by decide) (by decide)).2.1⟩

/-- C4: the CMS uploader reports success exactly when the response status
code is one of 200, 201, 202; for every other status the report line
carries the response body verbatim; and the catalog loop proceeds to the
remaining connectors after the upload regardless of the response. -/
theorem c4_upload_classification (env : String → Option String)
    (http : WebflowCall → HttpResponse) (sc : SourceConnector) (body : String) :
    ((upload_post_to_webflow env http sc body).1 = true ↔
        (http (webflowCallOf env sc body)).status_code ∈ [200, 201, 202])
  ∧ ((http (webflowCallOf env sc body)).status_code ∉ [200, 201, 202] →
      (upload_post_to_webflow env http sc body).2
        = "Failed to upload blog post " ++ sc.original ++ ". Status code: "
            ++ toString (http (webflowCallOf env sc body)).status_code
            ++ ", Response: " ++ (http (webflowCallOf env sc body)).text)
  ∧ (∀ (gen : SourceConnector → Except String String) (rest : List SourceConnector)
        (p : String), gen sc = Except.ok p →
      catalogLoop gen env http (sc :: rest)
        = RunEvent.saved (download_filename sc) p ::
            RunEvent.uploaded sc.original (upload_post_to_webflow env http sc p).1
              (upload_post_to_webflow env http sc p).2 ::
            catalogLoop gen env http rest) := by
  refine ⟨?_, ?_, ?_⟩
  · by_cases hs : (http (webflowCallOf env sc body)).status_code ∈ [200, 201, 202]
    · simp [upload_post_to_webflow, hs]
    · simp [upload_post_to_webflow, hs]
  · intro hs
    simp [upload_post_to_webflow, hs]
  · intro gen rest p hgen
    simp [catalogLoop, hgen]

/-- Exercises C4 with a concrete 500 response. -/
theorem c4_upload_classification_witness :
    (upload_post_to_webflow wEnvFull wHttp500 wSrcA "BODY").1 = true ↔
      (wHttp500 (webflowCallOf wEnvFull wSrcA "BODY")).status_code ∈ [200, 201, 202] :=
  (c4_upload_classification wEnvFull wHttp500 wSrcA "BODY").1

/-- C6 fails as stated: for canonical identifier "source-foo" the slug
placed in the CMS payload is "foo-python" — the code removes the substring
"source-" and then appends "-python" — not the bare remainder "foo" that
stripping the prefix alone would give. -/
theorem c6_counterexample :
    (blog_post_data { original := "Foo", formatted := "source-foo" } "BODY").fieldData.slug
        = "foo-python"
    ∧ (blog_post_data { original := "Foo", formatted := "source-foo" } "BODY").fieldData.slug
        ≠ "foo" := by
  constructor
  · rfl
  · decide

/-- C6 (amended): the slug is obtained by removing every occurrence of
"source-" from the canonical identifier and appending "-python"; for an
identifier "source-" ++ rest whose remainder contains no further
occurrence, the slug is exactly rest ++ "-python". -/
theorem c6_slug_amended (original body rest : String)
    (h : containsSeq ("source-".data) rest.data = false) :
    (blog_post_data { original := original, formatted := "source-" ++ rest }
        body).fieldData.slug = rest ++ "-python" := by
  have hdata : ("source-" ++ rest).data = "source-".data ++ rest.data := rfl
  have hrepl : replaceFuel ("source-".data) [] ("source-".data ++ rest.data).length
      ("source-".data ++ rest.data) = [] ++ rest.data :=
    replaceFuel_pat_append _ _ _ (by decide) _ (le_refl _) h
  have key : pyReplace ("source-" ++ rest) "source-" "" = rest := by
    show String.mk (replaceFuel ("source-".data) (("" : String).data)
        ("source-" ++ rest).data.length ("source-" ++ rest).data) = rest
    rw [hdata, show ("" : String).data = [] from rfl, hrepl]
    rfl
  have e : (blog_post_data { original := original, formatted := "source-" ++ rest }
      body).fieldData.slug = pyReplace ("source-" ++ rest) "source-" "" ++ "-python" := rfl
  rw [e, key]

/-- Exercises the amended C6 at "source-foo". -/
theorem c6_slug_amended_witness :
    containsSeq ("source-".data) ("foo".data) = false
    ∧ (blog_post_data { original := "Foo", formatted := "source-" ++ "foo" }
        "BODY").fieldData.slug = "foo" ++ "-python" :=
  ⟨by decide, c6_slug_amended "Foo" "BODY" "foo" (by decide)⟩

/-- C8: the Local Writer's path is derived deterministically from the
connector's canonical identifier — `./blogs/{formatted}.md`, so it depends
on nothing but the `formatted` field — and writing twice for the same
connector leaves the second body, not the concatenation: `open(..., "w")`
truncates, so a rerun overwrites. -/
theorem c8_local_writer (fs : String → Option String) (sc : SourceConnector)
    (b1 b2 other_name : String) :
    download_filename sc = "./blogs/" ++ sc.formatted ++ ".md"
    ∧ download_post (download_post fs sc b1) sc b2 (download_filename sc) = some b2
    ∧ download_filename { original := other_name, formatted := sc.formatted }
        = download_filename sc := by
  refine ⟨rfl, ?_, rfl⟩
  simp [download_post]

/-- Every cleaned configuration is free of the three-backtick marker: the
final `.replace("```", "")` pass leaves no occurrence behind. -/
theorem cleanConfig_no_fence (r : String) :
    containsSeq tick3 (cleanConfig r).data = false :=
  containsSeq_tick3_replaceFuel _ _ (le_refl _)

set_option maxRecDepth 40000 in
/-- C7 fails as stated: stripping the fence marker can itself re-create
the substring "json".  For the model response "js```on" the cleaned
configuration becomes "json", so the Snippet Synthesizer's output contains
the literal substring "json". -/
theorem c7_counterexample :
    containsSeq ("json".data)
      ((create_code_example wModelFence wSpec "source-faker").data) = true := by
  decide

/-- C7 (amended): for every model response and every connector identifier
free of backticks, the Snippet Synthesizer's output never contains the
literal substring "```"; the corresponding guarantee for "json" does not
hold, because removing "```" can rejoin a split "json". -/
theorem c7_no_fence_in_output (model : List Message → String)
    (config_spec : String → String) (connector : String)
    (hconn : ∀ c ∈ connector.data, c ≠ tick) :
    containsSeq tick3 (create_code_example model config_spec connector).data = false := by
  simp only [create_code_example]
  exact snippet_no_fence connector _ hconn (cleanConfig_no_fence _)

/-- Exercises the amended C7 on the fence-splitting response. -/
theorem c7_no_fence_in_output_witness :
    (∀ c ∈ ("source-faker" : String).data, c ≠ tick)
    ∧ containsSeq tick3 (create_code_example wModelFence wSpec "source-faker").data = false :=
  ⟨by decide, c7_no_fence_in_output wModelFence wSpec "source-faker" (by decide)⟩

/-- C10: the defensive cleanup removes "json" occurrences from the whole
response, not only fence artifacts — any response containing "json" is
strictly shortened (the first pass removes at least one occurrence and the
second pass never lengthens), hence silently altered before interpolation
into the snippet template. -/
theorem c10_json_stripped_everywhere (response : String)
    (h : containsSeq ("json".data) response.data = true) :
    (cleanConfig response).data.length < response.data.length
    ∧ cleanConfig response ≠ response := by
  have h1 : (pyReplace response "json" "").data.length < response.data.length :=
    replaceFuel_nil_length_lt ("json".data) (by decide) _ _ (le_refl _) h
  have h2 : (cleanConfig response).data.length
      ≤ (pyReplace response "json" "").data.length :=
    replaceFuel_nil_length_le _ _ _
  have hlt : (cleanConfig response).data.length < response.data.length :=
    Nat.lt_of_le_of_lt h2 h1
  refine ⟨hlt, ?_⟩
  intro he
  rw [he] at hlt
  exact Nat.lt_irrefl _ hlt

/-- Exercises C10 on a fence-free response whose legitimate content
mentions "data.json". -/
theorem c10_json_stripped_everywhere_witness :
    containsSeq ("json".data) ("path: data.json" : String).data = true
    ∧ cleanConfig "path: data.json" ≠ "path: data.json" :=
  ⟨by decide, (c10_json_stripped_everywhere "path: data.json" (by decide)).2⟩

/-- C2 fails as stated: generation failure on the second of three catalog
entries terminates the run (the exception is uncaught), so the Local Writer
and CMS Uploader run for connector 1 but are never invoked for
connector 3 — the trace stops after connector 1's two events. -/
theorem c2_counterexample :
    catalogLoop wGenFail2 wEnvFull wHttp200 [wSrcA, wSrcB, wSrcC]
      = [RunEvent.saved "./blogs/source-alpha.md" "POST",
         RunEvent.uploaded "Alpha" true "Blog post successfully uploaded for Alpha!"]
    ∧ (∀ content : String, RunEvent.saved (download_filename wSrcC) content ∉
        catalogLoop wGenFail2 wEnvFull wHttp200 [wSrcA, wSrcB, wSrcC])
    ∧ (∀ (ok : Bool) (line : String), RunEvent.uploaded wSrcC.original ok line ∉
        catalogLoop wGenFail2 wEnvFull wHttp200 [wSrcA, wSrcB, wSrcC]) := by
  have htrace : catalogLoop wGenFail2 wEnvFull wHttp200 [wSrcA, wSrcB, wSrcC]
      = [RunEvent.saved "./blogs/source-alpha.md" "POST",
         RunEvent.uploaded "Alpha" true "Blog post successfully uploaded for Alpha!"] := by
    decide
  refine ⟨htrace, ?_, ?_⟩
  · intro content hmem
    rw [htrace] at hmem
    simp only [List.mem_cons, List.not_mem_nil, or_false] at hmem
    rcases hmem with h | h
    · injection h with h1 h2
      exact absurd h1 (by decide)
    · exact RunEvent.noConfusion h
  · intro ok line hmem
    rw [htrace] at hmem
    simp only [List.mem_cons, List.not_mem_nil, or_false] at hmem
    rcases hmem with h | h
    · exact RunEvent.noConfusion h
    · injection h with h1 h2 h3
      exact absurd h1 (by decide)

/-- C2 (amended): with no exception handler in the loop body, a generation
failure on the second connector aborts the whole run — connector 1 is
written and uploaded, and no further connector is attempted. -/
theorem c2_failure_aborts (gen : SourceConnector → Except String String)
    (env : String → Option String) (http : WebflowCall → HttpResponse)
    (s1 s2 s3 : SourceConnector) (p1 e : String)
    (h1 : gen s1 = Except.ok p1) (h2 : gen s2 = Except.error e) :
    catalogLoop gen env http [s1, s2, s3]
      = [RunEvent.saved (download_filename s1) p1,
         RunEvent.uploaded s1.original (upload_post_to_webflow env http s1 p1).1
           (upload_post_to_webflow env http s1 p1).2] := by
  simp [catalogLoop, h1, h2]

/-- Exercises the amended C2 on the concrete three-entry catalog. -/
theorem c2_failure_aborts_witness :
    wGenFail2 wSrcA = Except.ok "POST"
    ∧ wGenFail2 wSrcB = Except.error "APIError"
    ∧ catalogLoop wGenFail2 wEnvFull wHttp200 [wSrcA, wSrcB, wSrcC]
      = [RunEvent.saved (download_filename wSrcA) "POST",
         RunEvent.uploaded wSrcA.original
           (upload_post_to_webflow wEnvFull wHttp200 wSrcA "POST").1
           (upload_post_to_webflow wEnvFull wHttp200 wSrcA "POST").2] :=
  ⟨rfl, rfl,
    c2_failure_aborts wGenFail2 wEnvFull wHttp200 wSrcA wSrcB wSrcC "POST" "APIError"
      rfl rfl⟩

/-- When generation succeeds for every entry, the loop emits exactly two
events (file save, upload) per connector — no environment lookup gates it. -/
theorem catalogLoop_length_ok (gen : SourceConnector → Except String String)
    (env : String → Option String) (http : WebflowCall → HttpResponse) :
    ∀ sources : List SourceConnector, (∀ sc ∈ sources, isOkE (gen sc) = true) →
      (catalogLoop gen env http sources).length = 2 * sources.length := by
  intro sources
  induction sources with
  | nil => intro _; simp [catalogLoop]
  | cons s rest ih =>
    intro hok
    have hs : isOkE (gen s) = true := hok s (by simp)
    cases hgen : gen s with
    | error e => rw [hgen] at hs; simp [isOkE] at hs
    | ok p =>
      simp only [catalogLoop, hgen, List.length_cons]
      rw [ih (fun sc hsc => hok sc (by simp [hsc]))]
      omega

/-- C9 fails as stated: with the CMS token absent from the environment (and
the model key present), the program does not halt before processing — the
single-connector run still writes the file and attempts the upload, whose
authorization header is the literal "Bearer None". -/
theorem c9_counterexample :
    wEnvNoTok "WEBFLOW_API_TOKEN" = none
    ∧ catalogLoop wGenOk wEnvNoTok wHttp200 [wSrcA]
        = [RunEvent.saved "./blogs/source-alpha.md" "POST",
           RunEvent.uploaded "Alpha" true "Blog post successfully uploaded for Alpha!"]
    ∧ (webflowCallOf wEnvNoTok wSrcA "POST").authHeader = "Bearer None" := by
  refine ⟨by decide, by decide, by decide⟩

/-- C9 (amended): the script performs no startup check for either secret; a
missing CMS token never halts the run.  Every successfully generated
connector is still written and uploaded (two events each), and each upload
carries authorization header "Bearer None" (Python's rendering of the
absent value). -/
theorem c9_no_failfast (env : String → Option String)
    (gen : SourceConnector → Except String String) (http : WebflowCall → HttpResponse)
    (sources : List SourceConnector)
    (htok : env "WEBFLOW_API_TOKEN" = none)
    (hok : ∀ sc ∈ sources, isOkE (gen sc) = true) :
    (catalogLoop gen env http sources).length = 2 * sources.length
    ∧ ∀ (sc : SourceConnector) (body : String),
        (webflowCallOf env sc body).authHeader = "Bearer None" := by
  refine ⟨catalogLoop_length_ok gen env http sources hok, ?_⟩
  intro sc body
  simp [webflowCallOf, htok, pyOptStr]

/-- Exercises the amended C9 on a two-entry catalog with the token absent. -/
theorem c9_no_failfast_witness :
    wEnvNoTok "WEBFLOW_API_TOKEN" = none
    ∧ (∀ sc ∈ [wSrcA, wSrcB], isOkE (wGenOk sc) = true)
    ∧ (catalogLoop wGenOk wEnvNoTok wHttp200 [wSrcA, wSrcB]).length
        = 2 * ([wSrcA, wSrcB] : List SourceConnector).length :=
  ⟨by decide, by decide,
    (c9_no_failfast wEnvNoTok wGenOk wHttp200 [wSrcA, wSrcB] (by decide) (by decide)).1⟩
